import Mathlib

set_option maxRecDepth 8192

/-!
Verification development for the WebAnalyzer pipeline
(`src/Scripts/{utils,scraper,analyzer,file_handler,processor}.py`).
Python strings are modelled as Lean `String` (lists of characters), machine
integers/timestamps as `Int`, the file system as a partial map from path to
(content, mtime), fallible steps as `Option`/`Except` values.
-/

namespace WebAnalyzer

/-! ### Python string primitives -/

/-- Python's notion of ASCII whitespace used by `str.strip()` / `str.split()`
(unicode whitespace is not modelled; no input in this development uses it). -/
def pyIsSpace (c : Char) : Bool :=
  c = ' ' || c = '\t' || c = '\n' || c = '\r' || c = '\x0b' || c = '\x0c'

/-- Strip characters satisfying `p` from both ends of a character list. -/
def stripEnds (p : Char → Bool) (l : List Char) : List Char :=
  ((l.dropWhile p).reverse.dropWhile p).reverse

/-- Python `str.strip()` (no argument): trim whitespace from both ends. -/
def pyStrip (s : String) : String := String.mk (stripEnds pyIsSpace s.data)

/-- Python `str.strip(c)` for a single character argument. -/
def pyStripChar (c : Char) (s : String) : String :=
  String.mk (stripEnds (fun d => d = c) s.data)

/-- Python `s[:n]` (a prefix slice). -/
def pyTake (n : Nat) (s : String) : String := String.mk (s.data.take n)

/-- Python `str.lower()` (ASCII case folding; all category names are ASCII). -/
def pyLower (s : String) : String := String.mk (s.data.map Char.toLower)

/-- Worker for `pySplitOn`: scans left to right, splitting at each
non-overlapping occurrence of `sep` (Python `str.split(sep)` semantics).
`fuel` bounds the recursion; callers pass at least `l.length + 1`. -/
def pySplitGo (sep : List Char) : Nat → List Char → List Char → List (List Char)
  | 0, l, cur => [cur.reverse ++ l]
  | fuel + 1, l, cur =>
    if sep.isPrefixOf l && !l.isEmpty then
      cur.reverse :: pySplitGo sep fuel (l.drop sep.length) []
    else
      match l with
      | [] => [cur.reverse]
      | c :: t => pySplitGo sep fuel t (c :: cur)

/-- Python `s.split(sep)` for a non-empty separator string. -/
def pySplitOn (s sep : String) : List String :=
  (pySplitGo sep.data (s.data.length + 1) s.data []).map String.mk

/-- Python `sub in s` (substring containment), expressed through the same
scan as `pySplitOn`: `sep` occurs in `s` iff the split has at least 2 parts. -/
def hasSub (s sub : String) : Bool := (pySplitOn s sub).length != 1

/-- Worker for `pyReplace` (Python `str.replace`, all occurrences,
left to right, non-overlapping). -/
def pyReplaceGo (old new : List Char) : Nat → List Char → List Char → List Char
  | 0, l, acc => acc.reverse ++ l
  | fuel + 1, l, acc =>
    if old.isPrefixOf l && !l.isEmpty then
      pyReplaceGo old new fuel (l.drop old.length) (new.reverse ++ acc)
    else
      match l with
      | [] => acc.reverse
      | c :: t => pyReplaceGo old new fuel t (c :: acc)

/-- Python `s.replace(old, new)` for a non-empty `old`. -/
def pyReplace (s old new : String) : String :=
  String.mk (pyReplaceGo old.data new.data (s.data.length + 1) s.data [])

/-- Python `sep.join(xs)`. -/
def pyJoin (sep : String) : List String → String
  | [] => ""
  | [x] => x
  | x :: y :: rest => x ++ sep ++ pyJoin sep (y :: rest)

/-- Worker for `pyWords` (Python `str.split()` with no argument:
split on whitespace runs, dropping empty tokens). -/
def pyWordsGo : Nat → List Char → List String
  | 0, _ => []
  | fuel + 1, l =>
    let l1 := l.dropWhile pyIsSpace
    match l1 with
    | [] => []
    | _ :: _ =>
      let w := l1.takeWhile (fun c => !pyIsSpace c)
      String.mk w :: pyWordsGo fuel (l1.drop w.length)

/-- Python `s.split()` (no argument). -/
def pyWords (s : String) : List String := pyWordsGo (s.data.length + 1) s.data

/-- Python `s.startswith(p)` (character-list based so that it reduces). -/
def strStarts (s p : String) : Bool := p.data.isPrefixOf s.data

/-- Python `s.endswith(p)` (character-list based so that it reduces). -/
def strEnds (s p : String) : Bool := p.data.isSuffixOf s.data

/-! ### `utils.validate_url` (src/Scripts/utils.py lines 24-38) -/

/-- The scheme-normalisation step of `validate_url`: strip whitespace and,
when the string does not start with `http://` or `https://`, prepend
`https://`. -/
def normalize_scheme (url : String) : String :=
  let u := pyStrip url
  if strStarts u "http://" || strStarts u "https://" then u else "https://" ++ u

/-- Python `url.split('//')[1]`: the chunk between the first `//` and the
next `//` (total here because every normalised URL contains `//`). -/
def afterScheme (u : String) : String := ((pySplitOn u "//").getD 1 "")

/-- `utils.validate_url`: strip, reject empty, prepend `https://` when no
scheme, then require a `'.'` somewhere in `url.split('//')[1]`. -/
def validate_url (url : String) : Option String :=
  if pyStrip url = "" then none
  else if (afterScheme (normalize_scheme url)).data.contains '.' then
    some (normalize_scheme url)
  else none

/-- The host segment of a URL carrying a scheme: the part after `//` up to
the first `/` (used to state what the spec calls the "host portion"). -/
def host_of (u : String) : String :=
  String.mk ((afterScheme u).data.takeWhile (fun c => c ≠ '/'))

/-- C5 counterexample: `validate_url` accepts `"localhost/index.html"`
(the `'.'` in the path satisfies the check) although the host portion
`localhost` contains no `'.'`, so the claim "inputs whose host portion
contains no '.' return no value" is false on the code. -/
theorem validate_url_hostless_dot_cex :
    validate_url "localhost/index.html" = some "https://localhost/index.html" ∧
    (host_of "https://localhost/index.html").data.contains '.' = false := by
  constructor <;> decide

/-- C5 amended: a returned URL always carries a `'.'` somewhere in the
remainder after `//` (not necessarily in the host); inputs missing a scheme
get `https://` prepended; and when that whole remainder has no `'.'` the
validator returns no value. -/
theorem validate_url_scheme_and_dot (url : String) :
    (∀ v, validate_url url = some v → (afterScheme v).data.contains '.' = true) ∧
    (strStarts (pyStrip url) "http://" = false → strStarts (pyStrip url) "https://" = false →
      ∀ v, validate_url url = some v → v = "https://" ++ pyStrip url) ∧
    ((afterScheme (normalize_scheme url)).data.contains '.' = false →
      validate_url url = none) := by
  refine ⟨?_, ?_, ?_⟩
  · intro v hv
    unfold validate_url at hv
    split at hv
    · exact absurd hv (by simp)
    · split at hv
      · rename_i hdot
        cases hv
        exact hdot
      · exact absurd hv (by simp)
  · intro h1 h2 v hv
    unfold validate_url at hv
    split at hv
    · exact absurd hv (by simp)
    · split at hv
      · cases hv
        unfold normalize_scheme
        simp [h1, h2]
      · exact absurd hv (by simp)
  · intro hdot
    unfold validate_url
    split
    · rfl
    · rw [hdot]
      simp

/-- C5 witness: the amended theorem applied at `"example.com"` (scheme gets
prepended, dot present) and at `" localhost"` (no dot after the scheme,
rejected). -/
theorem validate_url_scheme_and_dot_witness :
    (afterScheme "https://example.com").data.contains '.' = true ∧
    validate_url " localhost" = none := by
  constructor
  · exact (validate_url_scheme_and_dot "example.com").1 "https://example.com" (by decide)
  · exact (validate_url_scheme_and_dot " localhost").2.2 (by decide)

/-! ### Cache key derivation (src/Scripts/utils.py lines 40-66) -/

/-- `utils.sanitize_filename`: sequentially replace each character of the
invalid list with `'_'` (the final `".."` entry never matches, every `'.'`
having already been replaced); if the result strips (on `'_'`) to empty,
use `"unnamed_file"`. -/
def sanitize_filename (filename : String) : String :=
  let f := (["/", "\\", ":", "*", "?", "\"", "<", ">", "|", ".", ".."]).foldl
    (fun acc c => pyReplace acc c "_") filename
  if pyStripChar '_' f = "" then "unnamed_file" else f

/-- `utils.get_filename_from_url`: drop scheme and `www.`, drop a trailing
slash, sanitize, cap at 100 characters, append `".txt"`. -/
def get_filename_from_url (url : String) : String :=
  let c := pyReplace (pyReplace (pyReplace url "https://" "") "http://" "") "www." ""
  let c := if strEnds c "/" then String.mk c.data.dropLast else c
  let c := sanitize_filename c
  let c := if c.data.length > 100 then pyTake 100 c else c
  c ++ ".txt"

/-! ### Category cache (src/Scripts/analyzer.py lines 8-30,
src/Scripts/utils.py lines 68-81) -/

/-- The cache directory is modelled as a partial map from file path to
(content, modification time in seconds). -/
def FS : Type := String → Option (String × Int)

/-- The empty cache directory. -/
def emptyFS : FS := fun _ => none

/-- The cache file path for a URL:
`get_filename_from_url(url).replace('.txt', '_category.txt')`. -/
def cache_path (url : String) : String :=
  pyReplace (get_filename_from_url url) ".txt" "_category.txt"

/-- Number of days before cache entries expire (`config.CACHE_EXPIRY_DAYS`). -/
def CACHE_EXPIRY_DAYS : Int := 7

/-- `utils.is_cache_expired` on an existing file: the entry is stale when
`now - mtime` strictly exceeds `CACHE_EXPIRY_DAYS * 24 * 60 * 60` seconds. -/
def is_cache_expired (now mtime : Int) : Bool :=
  now - mtime > CACHE_EXPIRY_DAYS * 24 * 60 * 60

/-- `analyzer.check_category_cache`: if the cache file exists and is not
expired, return its content stripped of surrounding whitespace; otherwise
miss. The read path never deletes a stale file. -/
def check_category_cache (fs : FS) (now : Int) (url : String) : Option String :=
  match fs (cache_path url) with
  | none => none
  | some (content, mtime) =>
    if is_cache_expired now mtime then none else some (pyStrip content)

/-- `analyzer.save_category_cache`: overwrite the cache file for the URL's
key with the label, stamping the current time. -/
def save_category_cache (fs : FS) (now : Int) (url category : String) : FS :=
  fun p => if p = cache_path url then some (category, now) else fs p

/-- C6 counterexample: the read path strips whitespace, so writing the label
`"A "` and reading it back (well before expiry) returns `"A"`, not `"A "`:
the round-trip law "reading before expiry returns L" fails for labels with
surrounding whitespace. -/
theorem cache_roundtrip_strip_cex :
    check_category_cache (save_category_cache emptyFS 0 "example.com" "A ") 0
      "example.com" = some "A" ∧ ("A" : String) ≠ "A " := by
  constructor
  · decide
  · decide

/-- C6 amended: for labels without surrounding whitespace (true of every
category label the program writes), writing then reading before the expiry
window returns the label; reading after the window misses even though the
file is still present and unchanged. -/
theorem cache_roundtrip_expiry (fs : FS) (write_t read_t : Int) (url L : String)
    (hL : pyStrip L = L) :
    (read_t - write_t ≤ CACHE_EXPIRY_DAYS * 24 * 60 * 60 →
      check_category_cache (save_category_cache fs write_t url L) read_t url = some L) ∧
    (read_t - write_t > CACHE_EXPIRY_DAYS * 24 * 60 * 60 →
      check_category_cache (save_category_cache fs write_t url L) read_t url = none ∧
      save_category_cache fs write_t url L (cache_path url) = some (L, write_t)) := by
  constructor
  · intro hfresh
    have hexp : is_cache_expired read_t write_t = false := by
      simp only [is_cache_expired, decide_eq_false_iff_not, not_lt]
      omega
    simp [check_category_cache, save_category_cache, hexp, hL]
  · intro hstale
    have hexp : is_cache_expired read_t write_t = true := by
      simp only [is_cache_expired, decide_eq_true_eq]
      omega
    refine ⟨?_, ?_⟩
    · simp [check_category_cache, save_category_cache, hexp]
    · simp [save_category_cache]

/-- C6 witness: the amended theorem at label `"Travel"`, reading at the
write time (hit) and 100 days later (miss with the file intact). -/
theorem cache_roundtrip_expiry_witness :
    check_category_cache (save_category_cache emptyFS 0 "example.com" "Travel") 0
      "example.com" = some "Travel" ∧
    check_category_cache (save_category_cache emptyFS 0 "example.com" "Travel") 8640000
      "example.com" = none := by
  constructor
  · exact (cache_roundtrip_expiry emptyFS 0 0 "example.com" "Travel" (by decide)).1
      (by decide)
  · exact ((cache_roundtrip_expiry emptyFS 0 8640000 "example.com" "Travel"
      (by decide)).2 (by decide)).1

/-! ### Classifier (src/Scripts/analyzer.py lines 32-77) -/

/-- The keys of `config.CATEGORIES`, in insertion (iteration) order. -/
def CATEGORY_KEYS : List String :=
  ["Technology", "News", "Sports", "E-commerce", "Finance", "Education",
   "Healthcare", "Travel", "Food", "Entertainment", "Default"]

/-- The sample sent to the classification prompt
(`analyzer.py` line 40): `website_text[0:3000] if len(website_text)<3000
else website_text`. -/
def sample_text (website_text : String) : String :=
  if website_text.data.length < 3000 then pyTake 3000 website_text else website_text

/-- C2: the conditional slice in `detect_category` is inverted — it slices
only when the text is already shorter than 3000 characters (where the slice
is the identity) and passes the FULL text otherwise, so the sample equals
the whole extracted text on every input; in particular a 3001-character
text is sent unshortened, contradicting the claimed 3000-character bound. -/
theorem classifier_sample_never_truncates :
    (∀ s, sample_text s = s) ∧
    (String.mk (List.replicate 3001 'a')).data.length > 3000 ∧
    sample_text (String.mk (List.replicate 3001 'a')) = String.mk (List.replicate 3001 'a') := by
  have hall : ∀ s, sample_text s = s := by
    intro s
    unfold sample_text
    split
    · rename_i h
      unfold pyTake
      rw [List.take_of_length_le (by omega)]
    · rfl
  refine ⟨hall, ?_, hall _⟩
  show (List.replicate 3001 'a').length > 3000
  rw [List.length_replicate]
  omega

/-- The reply-matching loop of `detect_category`: the first category name
(in iteration order) whose lowercasing occurs as a substring of the
lowercased reply. -/
def classify_reply (reply : String) : Option String :=
  CATEGORY_KEYS.find? (fun c => hasSub (pyLower reply) (pyLower c))

/-- `analyzer.detect_category`, with the model call abstracted as its
outcome: `none` models the call (or reply access) raising, `some raw`
models a reply with content `raw`. Returns the resolved category together
with the cache directory after the call. -/
def detect_category (fs : FS) (now : Int) (_website_text url : String)
    (modelOutcome : Option String) : String × FS :=
  if (check_category_cache fs now url).getD "" ∈ CATEGORY_KEYS then
    ((check_category_cache fs now url).getD "", fs)
  else
    match modelOutcome with
    | none => ("Default", fs)
    | some raw =>
      match classify_reply (pyStrip raw) with
      | some c => (c, save_category_cache fs now url c)
      | none => ("Default", save_category_cache fs now url "Default")

/-- C3 counterexample: when the model call raises (outcome `none`),
`detect_category` returns `"Default"` but writes nothing to the cache —
the cache file for the URL is still absent afterwards — refuting the claim
that `"Default"` is persisted in both failure cases. -/
theorem classifier_failure_no_cache_write_cex :
    detect_category emptyFS 0 "text" "example.com" none = ("Default", emptyFS) ∧
    emptyFS (cache_path "example.com") = none := by
  constructor
  · have hmiss : (check_category_cache emptyFS 0 "example.com").getD "" ∉ CATEGORY_KEYS := by
      decide
    simp only [detect_category, if_neg hmiss]
  · rfl

/-- C3 amended: on a cache miss, a reply matching no category name yields
`"Default"` and persists `"Default"` to the URL's cache file; a raising
model call yields `"Default"` but leaves the cache untouched. -/
theorem classifier_default_fallback_cache (fs : FS) (now : Int) (txt url : String)
    (hmiss : (check_category_cache fs now url).getD "" ∉ CATEGORY_KEYS) :
    (∀ raw, classify_reply (pyStrip raw) = none →
      detect_category fs now txt url (some raw) =
        ("Default", save_category_cache fs now url "Default") ∧
      save_category_cache fs now url "Default" (cache_path url) = some ("Default", now)) ∧
    detect_category fs now txt url none = ("Default", fs) := by
  constructor
  · intro raw hraw
    constructor
    · simp only [detect_category, if_neg hmiss, hraw]
    · simp [save_category_cache]
  · simp only [detect_category, if_neg hmiss]

/-- C3 witness: the amended theorem on an empty cache with the unmatchable
reply `"no clear match here"` (cached fallback) and with a raising call
(no cache write). -/
theorem classifier_default_fallback_cache_witness :
    detect_category emptyFS 0 "txt" "example.com" (some "no clear match here") =
      ("Default", save_category_cache emptyFS 0 "example.com" "Default") ∧
    detect_category emptyFS 0 "txt" "example.com" none = ("Default", emptyFS) := by
  constructor
  · exact ((classifier_default_fallback_cache emptyFS 0 "txt" "example.com"
      (by decide)).1 "no clear match here" (by decide)).1
  · exact (classifier_default_fallback_cache emptyFS 0 "txt" "example.com"
      (by decide)).2

/-! ### Content extractor (src/Scripts/scraper.py lines 28-57,
src/Scripts/config.py line 86)

HTML is modelled at the parse-tree level (the `BeautifulSoup` node tree):
an element with a tag and children, or a text node. `decompose` removes a
matching element with its whole subtree; `get_text(separator=" ",
strip=True)` joins the stripped, non-empty text nodes with single spaces. -/

inductive Html where
  | txt (s : String)
  | elem (tag : String) (children : List Html)

/-- `config.MAX_TEXT_LENGTH`. -/
def MAX_TEXT_LENGTH : Nat := 10000

/-- The element kinds removed by `scraper.extract_main_content` (line 37).
`"header"` is NOT in this list, unlike the three sibling implementations
in the repository. -/
def REMOVED_TAGS : List String := ["script", "style", "nav", "footer", "aside", "iframe"]

mutual

/-- `element.decompose()` applied to every element whose tag is in `bad`:
keep the node unless its tag matches, recursing into children. -/
def scrubNode (bad : List String) : Html → List Html
  | .txt s => [.txt s]
  | .elem t cs => if t ∈ bad then [] else [.elem t (scrubList bad cs)]

/-- `scrubNode` over a forest. -/
def scrubList (bad : List String) : List Html → List Html
  | [] => []
  | h :: rest => scrubNode bad h ++ scrubList bad rest

end

mutual

/-- All text-node contents of a node, in document order. -/
def textsNode : Html → List String
  | .txt s => [s]
  | .elem _ cs => textsList cs

/-- `textsNode` over a forest. -/
def textsList : List Html → List String
  | [] => []
  | h :: rest => textsNode h ++ textsList rest

end

/-- `soup.get_text(separator=" ", strip=True)`: strip every text node,
drop the empty ones, join with single spaces. -/
def get_text (hs : List Html) : String :=
  pyJoin " " (((textsList hs).map pyStrip).filter (fun s => s ≠ ""))

/-- The text of a document after removing the non-content elements —
the value truncated by `extract_main_content`. -/
def cleaned_text (doc : Html) : String := get_text (scrubList REMOVED_TAGS [doc])

/-- `scraper.extract_main_content` on a parsed document: scrub the
non-content elements, join the visible text, cap at `MAX_TEXT_LENGTH`. -/
def extract_main_content (doc : Html) : String :=
  if (cleaned_text doc).data.length > MAX_TEXT_LENGTH then
    pyTake MAX_TEXT_LENGTH (cleaned_text doc)
  else cleaned_text doc

/-- The fallback extraction path of `extract_main_content` (lines 48-57),
taken when HTML parsing raises: `' '.join(html_content.split())` capped at
`MAX_TEXT_LENGTH`, and `""` for empty input. -/
def extract_fallback (raw : String) : String :=
  if raw = "" then ""
  else if (pyJoin " " (pyWords raw)).data.length > MAX_TEXT_LENGTH then
    pyTake MAX_TEXT_LENGTH (pyJoin " " (pyWords raw))
  else pyJoin " " (pyWords raw)

/-- A document whose `<header>` element contains text. -/
def header_doc : Html :=
  .elem "body" [.elem "header" [.txt "HEADERTEXT"], .elem "p" [.txt "hello"]]

/-- C4: `scraper.extract_main_content` removes only six element kinds —
`"header"` is missing from its removal list (present in the spec and in the
repository's three sibling implementations) — so text inside a `<header>`
element survives into the output: on `header_doc` the extraction returns
`"HEADERTEXT hello"`. -/
theorem extractor_keeps_header_text :
    extract_main_content header_doc = "HEADERTEXT hello" ∧
    "header" ∉ REMOVED_TAGS := by
  constructor
  · simp only [extract_main_content, cleaned_text, header_doc, get_text,
      scrubList, scrubNode, textsList, textsNode]
    decide
  · decide

/-- C8: the extractor's hard character cap. On the parse path, text longer
than `MAX_TEXT_LENGTH` is returned as exactly the `MAX_TEXT_LENGTH`-character
prefix, and text at or under the cap is returned unshortened; the same cap
governs the fallback path taken when HTML parsing raises. -/
theorem extractor_length_cap (doc : Html) (raw : String) :
    ((cleaned_text doc).data.length > MAX_TEXT_LENGTH →
      (extract_main_content doc).data.length = MAX_TEXT_LENGTH ∧
      extract_main_content doc = pyTake MAX_TEXT_LENGTH (cleaned_text doc)) ∧
    ((cleaned_text doc).data.length ≤ MAX_TEXT_LENGTH →
      extract_main_content doc = cleaned_text doc) ∧
    ((pyJoin " " (pyWords raw)).data.length > MAX_TEXT_LENGTH →
      (extract_fallback raw).data.length = MAX_TEXT_LENGTH) ∧
    ((pyJoin " " (pyWords raw)).data.length ≤ MAX_TEXT_LENGTH →
      extract_fallback raw = pyJoin " " (pyWords raw)) := by
  refine ⟨?_, ?_, ?_, ?_⟩
  · intro h
    unfold extract_main_content
    rw [if_pos h]
    refine ⟨?_, rfl⟩
    show ((cleaned_text doc).data.take MAX_TEXT_LENGTH).length = MAX_TEXT_LENGTH
    rw [List.length_take]
    omega
  · intro h
    unfold extract_main_content
    rw [if_neg (by omega)]
  · intro h
    by_cases hr : raw = ""
    · subst hr
      exact absurd h (by decide)
    · unfold extract_fallback
      rw [if_neg hr, if_pos h]
      show ((pyJoin " " (pyWords raw)).data.take MAX_TEXT_LENGTH).length = MAX_TEXT_LENGTH
      rw [List.length_take]
      omega
  · intro h
    by_cases hr : raw = ""
    · subst hr
      decide
    · unfold extract_fallback
      rw [if_neg hr, if_neg (by omega)]

/-- On a lone text node that strips to itself and is non-empty, the
cleaned text is the node's own content. -/
theorem cleaned_text_txt (s : String) (h1 : pyStrip s = s) (h2 : s ≠ "") :
    cleaned_text (.txt s) = s := by
  simp [cleaned_text, scrubList, scrubNode, textsList, textsNode, get_text, h1, h2, pyJoin]

/-- `dropWhile pyIsSpace` leaves a replicate of `'a'` unchanged. -/
theorem dropWhile_space_replicate_a (m : Nat) :
    List.dropWhile pyIsSpace (List.replicate m 'a') = List.replicate m 'a' := by
  cases m with
  | zero => rfl
  | succ k =>
    rw [List.replicate_succ, List.dropWhile_cons]
    have ha : pyIsSpace 'a' = false := by decide
    simp [ha]

/-- `pyStrip` leaves a replicate of `'a'` unchanged. -/
theorem pyStrip_replicate_a (n : Nat) :
    pyStrip (String.mk (List.replicate n 'a')) = String.mk (List.replicate n 'a') := by
  show String.mk (stripEnds pyIsSpace (List.replicate n 'a')) = _
  unfold stripEnds
  rw [dropWhile_space_replicate_a, List.reverse_replicate,
    dropWhile_space_replicate_a, List.reverse_replicate]

/-- A non-trivial replicate string is not empty. -/
theorem replicate_string_ne_empty (n : Nat) :
    String.mk (List.replicate (n + 1) 'a') ≠ "" := by
  intro h
  have h2 := congrArg String.data h
  simp at h2

/-- C8 witness: a 10001-character text node is returned with length exactly
10000, and a short fallback input is returned unshortened. -/
theorem extractor_length_cap_witness :
    (extract_main_content (Html.txt (String.mk (List.replicate 10001 'a')))).data.length
      = MAX_TEXT_LENGTH ∧
    extract_fallback "a b" = "a b" := by
  constructor
  · have hclean : cleaned_text (Html.txt (String.mk (List.replicate 10001 'a')))
        = String.mk (List.replicate 10001 'a') :=
      cleaned_text_txt _ (pyStrip_replicate_a _) (replicate_string_ne_empty 10000)
    have hlen : (cleaned_text (Html.txt (String.mk (List.replicate 10001 'a')))).data.length
        > MAX_TEXT_LENGTH := by
      rw [hclean]
      show (List.replicate 10001 'a').length > MAX_TEXT_LENGTH
      rw [List.length_replicate]
      decide
    exact ((extractor_length_cap (Html.txt (String.mk (List.replicate 10001 'a'))) "").1
      hlen).1
  · have h := (extractor_length_cap (Html.txt "") "a b").2.2.2 (by decide)
    rw [h]
    decide

/-! ### Output parser: the row-building step of
`file_handler.save_analysis_to_file` (src/Scripts/file_handler.py
lines 35-84) -/

/-- The parser states of CPython's `_csv` reader (excel dialect). -/
inductive CsvSt where
  | startRec | startField | inField | inQuoted | quoteInQuoted | eatCrnl

/-- Newline characters as the csv reader sees them. -/
def isNl (c : Char) : Bool := c = '\n' || c = '\r'

/-- A single-line run of Python's `csv.reader` (excel dialect, non-strict),
as exercised by `save_analysis_to_file`: `none` models `csv.Error` (a
newline character in an unquoted field), `some row` the produced row
(`some []` for an empty line). `acc` holds completed fields reversed,
`cur` the current field's characters reversed. The 128KiB field-size limit
is not modelled (both overflows land in caught-exception branches). -/
def csvGo : CsvSt → List Char → List String → List Char → Option (List String)
  | .startRec, [], acc, _ => some acc.reverse
  | .startField, [], acc, cur => some ((String.mk cur.reverse) :: acc).reverse
  | .inField, [], acc, cur => some ((String.mk cur.reverse) :: acc).reverse
  | .inQuoted, [], acc, cur => some ((String.mk cur.reverse) :: acc).reverse
  | .quoteInQuoted, [], acc, cur => some ((String.mk cur.reverse) :: acc).reverse
  | .eatCrnl, [], acc, _ => some acc.reverse
  | .startRec, c :: rest, acc, _ =>
    if c = '"' then csvGo .inQuoted rest acc []
    else if c = ',' then csvGo .startField rest ("" :: acc) []
    else if isNl c then csvGo .eatCrnl rest acc []
    else csvGo .inField rest acc [c]
  | .startField, c :: rest, acc, _ =>
    if c = '"' then csvGo .inQuoted rest acc []
    else if c = ',' then csvGo .startField rest ("" :: acc) []
    else if isNl c then csvGo .eatCrnl rest ("" :: acc) []
    else csvGo .inField rest acc [c]
  | .inField, c :: rest, acc, cur =>
    if c = ',' then csvGo .startField rest (String.mk cur.reverse :: acc) []
    else if isNl c then csvGo .eatCrnl rest (String.mk cur.reverse :: acc) []
    else csvGo .inField rest acc (c :: cur)
  | .inQuoted, c :: rest, acc, cur =>
    if c = '"' then csvGo .quoteInQuoted rest acc cur
    else csvGo .inQuoted rest acc (c :: cur)
  | .quoteInQuoted, c :: rest, acc, cur =>
    if c = '"' then csvGo .inQuoted rest acc ('"' :: cur)
    else if c = ',' then csvGo .startField rest (String.mk cur.reverse :: acc) []
    else if isNl c then csvGo .eatCrnl rest (String.mk cur.reverse :: acc) []
    else csvGo .inField rest acc (c :: cur)
  | .eatCrnl, c :: rest, acc, cur =>
    if isNl c then csvGo .eatCrnl rest acc cur
    else none

/-- `next(csv.reader([s]), None)` for the single pre-stripped line `s`. -/
def csvParseLine (s : String) : Option (List String) := csvGo .startRec s.data [] []

/-- `analysis_text.split("\n\n===========")[0].strip()`: the part of the
reply before the footer, trimmed. -/
def answersPart (analysis_text : String) : String :=
  pyStrip ((pySplitOn analysis_text "\n\n===========").headD "")

/-- `answers_part.replace('""', '"')`, the cleanup applied before CSV
parsing (and therefore also the value used by the bare-except fallback). -/
def cleanedPart (s : String) : String := pyReplace (answersPart s) "\"\"" "\""

/-- The row-building step of `save_analysis_to_file`: split on `"|||"` when
present; otherwise try the CSV parse; an empty parse falls back to naive
comma-splitting with quote-stripping; a `csv.Error` (caught by the bare
`except`) falls back to the whole cleaned text as a single field. -/
def rowData (s : String) : List String :=
  if hasSub (answersPart s) "|||" then pySplitOn (answersPart s) "|||"
  else
    match csvParseLine (cleanedPart s) with
    | none => [cleanedPart s]
    | some r =>
      if r = [] then (pySplitOn (cleanedPart s) ",").map (pyStripChar '"') else r

/-- `pySplitGo` never produces an empty list of parts. -/
theorem pySplitGo_ne_nil (sep : List Char) :
    ∀ (fuel : Nat) (l cur : List Char), pySplitGo sep fuel l cur ≠ [] := by
  intro fuel
  induction fuel with
  | zero => intro l cur; simp [pySplitGo]
  | succ n ih =>
    intro l cur
    unfold pySplitGo
    split
    · simp
    · cases l with
      | nil => simp
      | cons c t => exact ih t (c :: cur)

/-- `pySplitOn` never produces an empty list of parts. -/
theorem pySplitOn_ne_nil (s sep : String) : pySplitOn s sep ≠ [] := by
  unfold pySplitOn
  rw [Ne, List.map_eq_nil_iff]
  exact pySplitGo_ne_nil sep.data (s.data.length + 1) s.data []

/-- C7: the row-building step is total and degrades instead of failing:
whatever the reply, it yields a non-empty row; when neither structured
format applies (no `"|||"` and the CSV parse raises), the whole cleaned
reply becomes a single opaque field; the empty reply yields the
single-empty-field row. -/
theorem output_parser_total_fallback (s : String)
    (h1 : hasSub (answersPart s) "|||" = false)
    (h2 : csvParseLine (cleanedPart s) = none) :
    rowData s = [cleanedPart s] ∧ (∀ t, rowData t ≠ []) ∧ rowData "" = [""] := by
  refine ⟨?_, ?_, ?_⟩
  · rw [rowData, if_neg (by rw [h1]; simp), h2]
  · intro t
    unfold rowData
    split
    · exact pySplitOn_ne_nil _ _
    · split
      · simp
      · split
        · rw [Ne, List.map_eq_nil_iff]
          exact pySplitOn_ne_nil _ _
        · rename_i r hne
          exact hne
  · decide

/-- C7 witness: the reply `"a\nb"` (a newline in an unquoted field makes
the CSV parse raise, and it contains no `"|||"`) becomes the single-field
row holding the whole text, and the empty reply yields `[""]`. -/
theorem output_parser_total_fallback_witness :
    rowData "a\nb" = ["a\nb"] ∧ rowData "" = [""] := by
  have h := output_parser_total_fallback "a\nb" (by decide) (by decide)
  refine ⟨?_, h.2.2⟩
  rw [h.1]
  decide

/-- The row appended on the normal path of `save_analysis_to_file`:
the URL prepended to the parsed row. -/
def save_row (analysis_text url : String) : List String :=
  url :: rowData analysis_text

/-- The row appended by the exception-recovery path of
`save_analysis_to_file`: the URL and the raw analysis text with newlines
replaced by spaces. -/
def save_row_fallback (analysis_text url : String) : List String :=
  [url, pyReplace analysis_text "\n" " "]

/-- The rows `save_analysis_to_file` appends, as a function of which file
writes succeed: the normal row when the first write succeeds, the recovery
row when only the second does, nothing when both raise. -/
def appended_rows (writeOk fallbackOk : Bool) (analysis_text url : String) :
    List (List String) :=
  if writeOk then [save_row analysis_text url]
  else if fallbackOk then [save_row_fallback analysis_text url]
  else []

/-- C10: every row `save_analysis_to_file` appends — on the `"|||"` path,
the CSV path, the opaque-fallback path (all covered by `save_row`) and the
exception-recovery path (`save_row_fallback`) — has the URL as its first
field. -/
theorem saved_row_url_first (w f : Bool) (a url : String) (r : List String)
    (h : r ∈ appended_rows w f a url) : r.head? = some url := by
  unfold appended_rows at h
  split at h
  · simp only [List.mem_singleton] at h
    subst h
    rfl
  · split at h
    · simp only [List.mem_singleton] at h
      subst h
      rfl
    · simp at h

/-- C10 witness: the normal-path row for analysis `"x"` and URL `"u"`
starts with `"u"`. -/
theorem saved_row_url_first_witness : (save_row "x" "u").head? = some "u" :=
  saved_row_url_first true true "x" "u" (save_row "x" "u") (by simp [appended_rows])

/-! ### JSON-array-of-objects reply format (Output Parser, spec §4.7)

The step that extracts the JSON array from a reply and joins the answers
with `"|||"` is not present under `src/` — only its consumer, the `"|||"`
branch of `save_analysis_to_file`, is (see the comment at
`file_handler.py` line 43). It is therefore modelled from the spec:
take the segment between the first `'['` and the last `']'`, parse it as a
JSON array of flat objects with string fields, and map each element to its
`"answer"` value, substituting `"-"` for elements without one. JSON string
escapes and non-string field values are outside the modelled fragment. -/

/-- The `'\x7b'` character (left curly brace). -/
def lbraceC : Char := Char.ofNat 123

/-- The `'\x7d'` character (right curly brace). -/
def rbraceC : Char := Char.ofNat 125

/-- Modelled from the spec: the substring from the first `'['` to the last
`']'` of the reply, or nothing when no such segment exists. -/
def bracket_segment (s : String) : Option String :=
  match s.data.findIdx? (fun c => c = '['), s.data.reverse.findIdx? (fun c => c = ']') with
  | some i, some jr =>
    if i + jr + 1 ≤ s.data.length then
      some (String.mk ((s.data.take (s.data.length - jr)).drop i))
    else none
  | _, _ => none

/-- Skip JSON whitespace. -/
def skipWs (l : List Char) : List Char := l.dropWhile pyIsSpace

/-- Parse a JSON string literal (escape-free fragment). -/
def parseJString : List Char → Option (String × List Char)
  | c :: rest =>
    if c = '"' then
      match rest.drop (rest.takeWhile (fun d => d ≠ '"')).length with
      | d :: r2 =>
        if d = '"' then some (String.mk (rest.takeWhile (fun d => d ≠ '"')), r2)
        else none
      | [] => none
    else none
  | [] => none

/-- Parse the `"k": "v"` pairs of a (non-empty) JSON object body up to and
including the closing brace. -/
def parsePairs : Nat → List Char → List (String × String) →
    Option (List (String × String) × List Char)
  | 0, _, _ => none
  | fuel + 1, l, acc =>
    match parseJString (skipWs l) with
    | none => none
    | some (k, r1) =>
      match skipWs r1 with
      | ':' :: r2 =>
        match parseJString (skipWs r2) with
        | none => none
        | some (v, r3) =>
          match skipWs r3 with
          | c :: r4 =>
            if c = ',' then parsePairs fuel r4 ((k, v) :: acc)
            else if c = rbraceC then some (((k, v) :: acc).reverse, r4)
            else none
          | [] => none
      | _ => none

/-- Parse one JSON object of string fields. -/
def parseObject (fuel : Nat) (l : List Char) :
    Option (List (String × String) × List Char) :=
  match skipWs l with
  | c :: r =>
    if c = lbraceC then
      match skipWs r with
      | d :: r2 => if d = rbraceC then some ([], r2) else parsePairs fuel (d :: r2) []
      | [] => none
    else none
  | [] => none

/-- Parse the elements of a (non-empty) JSON array of objects up to the
closing bracket, requiring only whitespace afterwards. -/
def parseObjects : Nat → List Char → List (List (String × String)) →
    Option (List (List (String × String)))
  | 0, _, _ => none
  | fuel + 1, l, acc =>
    match parseObject fuel l with
    | none => none
    | some (obj, r) =>
      match skipWs r with
      | c :: r2 =>
        if c = ',' then parseObjects fuel r2 (obj :: acc)
        else if c = ']' then (if skipWs r2 = [] then some ((obj :: acc).reverse) else none)
        else none
      | [] => none

/-- Parse a complete JSON array of flat string-field objects. -/
def parse_json_array (s : String) : Option (List (List (String × String))) :=
  match skipWs s.data with
  | c :: r =>
    if c = '[' then
      match skipWs r with
      | d :: r2 =>
        if d = ']' then (if skipWs r2 = [] then some [] else none)
        else parseObjects (s.data.length + 1) (d :: r2) []
      | [] => none
    else none
  | [] => none

/-- Modelled from the spec: the bracket segment of a reply parsed as a JSON
array of objects. -/
def parse_reply_array (reply : String) : Option (List (List (String × String))) :=
  match bracket_segment reply with
  | none => none
  | some seg => parse_json_array seg

/-- Modelled from the spec: an element's `"answer"` value, or the `"-"`
placeholder when the element has no `"answer"` field. -/
def obj_answer (obj : List (String × String)) : String :=
  (obj.lookup "answer").getD "-"

/-- Modelled from the spec: the ordered row of answer values extracted from
a reply containing a JSON array. -/
def json_row (reply : String) : Option (List String) :=
  match parse_reply_array reply with
  | none => none
  | some objs => some (objs.map obj_answer)

/-- C1: whenever a reply contains a JSON array of objects (between its
first `'['` and last `']'`), the extracted row is exactly the ordered list
of `"answer"` values with `"-"` at malformed positions; concretely, the
two-object array embedded in prose yields `["A", "B"]`, the array with the
malformed element `\x7b"x":"y"\x7d` yields `["A", "-"]`, and feeding the
`"|||"`-joined answers through `save_analysis_to_file`'s row-building step
recovers `["A", "B"]`. -/
theorem json_answers_row (reply : String) (objs : List (List (String × String)))
    (h : parse_reply_array reply = some objs) :
    json_row reply = some (objs.map obj_answer) ∧
    json_row "Here are the answers: [\x7b\"answer\":\"A\"\x7d, \x7b\"answer\":\"B\"\x7d] Done."
      = some ["A", "B"] ∧
    json_row "Result: [\x7b\"answer\":\"A\"\x7d, \x7b\"x\":\"y\"\x7d]" = some ["A", "-"] ∧
    rowData (pyJoin "|||" ["A", "B"]) = ["A", "B"] := by
  refine ⟨?_, by decide, by decide, by decide⟩
  simp only [json_row, h]

/-- C1 witness: the theorem applied to a concrete reply whose bracket
segment parses to a single-object array. -/
theorem json_answers_row_witness :
    json_row "x [\x7b\"answer\":\"A\"\x7d] y" =
      some (([[("answer", "A")]].map obj_answer : List String)) :=
  (json_answers_row "x [\x7b\"answer\":\"A\"\x7d] y" [[("answer", "A")]] (by decide)).1

/-! ### Batch orchestrator (src/Scripts/processor.py lines 10-87)

Each task's external interactions (network fetch, model calls, file
writes) are abstracted as an environment of oracle outcomes; `.error e`
models the corresponding Python call raising with message `e`, which
`process_url`'s `try/except` turns into a failed outcome. -/

/-- The observable outcomes of one URL's pipeline steps. -/
structure PipelineEnv where
  scrapeF : String → Except String String
  extractF : String → Except String String
  classifyF : String → String → Except String String
  analyzeF : String → String → String → Except String String
  saveF : String → String → String → Except String (Bool × String)

/-- `processor.process_url`: validate, then run
scrape → extract → classify → analyze → save inside `try/except`,
returning a `(url, success, result-or-reason)` tuple on every path.
Empty scrape output and empty extracted text map the code's falsy checks. -/
def process_url (env : PipelineEnv) (url : String) : String × Bool × String :=
  match validate_url url with
  | none => (url, false, "Invalid URL format")
  | some vu =>
    match env.scrapeF vu with
    | .error e => (vu, false, "Error: " ++ e)
    | .ok html =>
      if html = "" then (vu, false, "Failed to scrape website")
      else
        match env.extractF html with
        | .error e => (vu, false, "Error: " ++ e)
        | .ok txt =>
          if txt = "" then (vu, false, "Failed to extract content")
          else
            match env.classifyF txt vu with
            | .error e => (vu, false, "Error: " ++ e)
            | .ok cat =>
              match env.analyzeF txt cat vu with
              | .error e => (vu, false, "Error: " ++ e)
              | .ok analysis =>
                match env.saveF analysis cat vu with
                | .error e => (vu, false, "Error: " ++ e)
                | .ok (ok, result) =>
                  if ok then (vu, true, result)
                  else (vu, false, "Failed to save: " ++ result)

/-- `processor.batch_process_urls`: one independent `process_url` task per
input URL (the thread pool is modelled by giving each URL its own oracle
environment; since `process_url` is total, every future yields a result
and the collector appends exactly one outcome per task). -/
def batch_process_urls (env : String → PipelineEnv) (urls : List String) :
    List (String × Bool × String) :=
  urls.map (fun u => process_url (env u) u)

/-- C9: a batch run produces exactly one outcome per input URL, the i-th
outcome being precisely the result of running that URL's own pipeline (so
one URL's failure cannot abort or alter any other's), and `process_url` is
a total function whose outcome is always labelled with the (validated)
URL. -/
theorem batch_one_outcome_per_url (env : String → PipelineEnv) (urls : List String) :
    (batch_process_urls env urls).length = urls.length ∧
    (∀ i, (batch_process_urls env urls).get? i =
      (urls.get? i).map (fun u => process_url (env u) u)) ∧
    (∀ e u, (process_url e u).1 = (validate_url u).getD u) := by
  refine ⟨?_, ?_, ?_⟩
  · simp [batch_process_urls]
  · intro i
    simp [batch_process_urls]
  · intro e u
    unfold process_url
    cases hv : validate_url u with
    | none => rfl
    | some vu =>
      simp only [Option.getD_some]
      repeat' split
      all_goals rfl

end WebAnalyzer
